import Mathlib

/-!
Shallow embedding of the MCP demo repository's tool-serving scripts.

Embedded sources:
- `src/subprocess/mcp_server.py` — low-level MCP server: `log`, AWS client
  initialization, `list_tools`, `call_tool`, all over stdio.
- `src/subprocess-strands/mcp_server_strands.py` — FastMCP server whose
  handlers (`list_s3_buckets`, `get_s3_object`, `query_dynamodb`,
  `put_dynamodb_item`, ...) each catch their own exceptions and return strings.
- `src/local/mcp_server.py` — HTTP-binding server that reads `AWS_PROFILE` and
  `AWS_DEFAULT_REGION` from the environment when building its boto3 session.

External collaborators (boto3/AWS, `json.loads`) are modelled as oracles: each
backend operation's outcome (`Except`-valued: raise or return) is an input to
the embedded function, and every backend invocation is recorded in an effect
trace so that "no backend side effect" claims are statements about that trace.
-/

/-- Output channel of the server process. `stdout` carries protocol frames;
`stderr` is the diagnostic side channel. -/
inductive Channel where
  | stdout
  | stderr
deriving DecidableEq, Repr

/-- One line written by the server process to one of its output channels. -/
structure Emission where
  channel : Channel
  text : String
deriving DecidableEq, Repr

/-- Embeds `log` of `src/subprocess/mcp_server.py` (and the identical `log` of
`src/subprocess-strands/mcp_server_strands.py`): `print(f"[SERVER] {message}",
file=sys.stderr)` — every diagnostic line goes to stderr. -/
def log (message : String) : Emission :=
  { channel := Channel.stderr, text := "[SERVER] " ++ message }

/-- A DynamoDB item / a Python dict with string keys and string values, as an
association list in insertion order. -/
abbrev Item := List (String × String)

/-- Python single-quote character, used by the `str()` rendering of dicts. -/
def pyQuote : String := (Char.ofNat 39).toString

/-- Python `str()` of a dict with string keys and values: `\x7b'k': 'v'\x7d`,
`\x7b\x7d` when empty. -/
def pyStrDict (d : Item) : String :=
  "\x7b"
    ++ String.intercalate ", "
      (d.map (fun kv => pyQuote ++ kv.1 ++ pyQuote ++ ": " ++ pyQuote ++ kv.2 ++ pyQuote))
    ++ "\x7d"

/-- Outcome of one backend (boto3) operation: the call either returns a value
or raises an exception carrying a message. -/
abbrev BackendOutcome (α : Type) := Except String α

/-- Oracle for the AWS backend: the outcome each boto3 operation would have if
invoked. `getItem` returns the optional `Item` of the response (absent when the
response has no `Item` field). -/
structure Backend where
  listBuckets : BackendOutcome (List String)
  getObject : String → String → BackendOutcome String
  getItem : String → String → String → BackendOutcome (Option Item)
  putObject : String → String → String → BackendOutcome Unit
  putItem : String → Item → BackendOutcome Unit
  listTables : BackendOutcome (List String)

/-- One backend invocation actually performed during a call — the side-effect
trace of the embedding. -/
inductive Effect where
  | listBucketsCall
  | getObjectCall (bucket key : String)
  | getItemCall (table key value : String)
  | putObjectCall (bucket key content : String)
  | putItemCall (table : String) (item : Item)
  | listTablesCall
deriving DecidableEq, Repr

/-- Exceptions of the Python scripts that can escape the dispatcher function.
`schemaViolation` renders the spec's schema-validation protocol-error kind
(spec §4.2/§7) so that claims about it can be stated; the embedded code never
constructs it. -/
inductive PyExn where
  | keyError (key : String)
  | valueError (msg : String)
  | backendError (msg : String)
  | schemaViolation (msg : String)
deriving DecidableEq, Repr

/-- `TextContent(type="text", text=...)` of the MCP types module as used by
`src/subprocess/mcp_server.py`. -/
structure TextContent where
  type : String
  text : String
deriving DecidableEq, Repr

/-- Descriptor of one tool as returned by `list_tools` in
`src/subprocess/mcp_server.py`: name, description, and the `properties` /
`required` parts of its `inputSchema` (all declared parameters have JSON type
string there). -/
structure Tool where
  name : String
  description : String
  properties : List String
  required : List String
deriving DecidableEq, Repr

/-- Embeds `list_tools` of `src/subprocess/mcp_server.py` (lines 27–65): the
literal three-descriptor list, in the order written in the source. -/
def list_tools : List Tool :=
  [ { name := "list_s3_buckets"
    , description := "List all S3 buckets"
    , properties := []
    , required := [] }
  , { name := "get_s3_object"
    , description := "Get an object from S3"
    , properties := ["bucket", "key"]
    , required := ["bucket", "key"] }
  , { name := "query_dynamodb"
    , description := "Query a DynamoDB table"
    , properties := ["table_name", "key", "value"]
    , required := ["table_name", "key", "value"] } ]

/-- The diagnostic emitted by each `list_tools` invocation (line 30). -/
def list_tools_emissions : List Emission := List.map log ["list_tools called"]

/-- Repeated invocation of `list_tools` within one session: the Python
function takes no arguments and returns the literal list each time, so the
`n`-th call returns the same value. -/
def list_tools_call (_n : Nat) : List Tool := list_tools

/-- Result of one `call_tool` dispatch: the returned content list or the
exception that escaped the function, plus the backend effect trace and the
diagnostic emissions. -/
structure CallOutcome where
  result : Except PyExn (List TextContent)
  effects : List Effect
  emissions : List Emission

/-- Python `str()` of the `arguments` dict, used in the entry log line. -/
def pyStrArgs (args : List (String × String)) : String := pyStrDict args

/-- Embeds `call_tool` of `src/subprocess/mcp_server.py` (lines 67–110).
The outer `try/except` logs and re-raises, so an exception that reaches it
escapes the function unchanged (modulo the extra stderr line). The
`get_s3_object` and `query_dynamodb` branches read their arguments outside
their inner `try`, so a missing argument raises `KeyError` uncaught; their
inner `try` converts a backend exception into an ordinary `TextContent`
result. An unmatched name raises `ValueError`, re-raised by the outer
handler. -/
def call_tool (b : Backend) (name : String) (args : List (String × String)) :
    CallOutcome :=
  let entry := "call_tool: " ++ name ++ " with " ++ pyStrArgs args
  if name = "list_s3_buckets" then
    match b.listBuckets with
    | .ok buckets =>
        { result := .ok [{ type := "text"
                         , text := "S3 Buckets: " ++ String.intercalate ", " buckets }]
        , effects := [Effect.listBucketsCall]
        , emissions := List.map log [entry] }
    | .error e =>
        { result := .error (PyExn.backendError e)
        , effects := [Effect.listBucketsCall]
        , emissions := List.map log [entry, "ERROR in call_tool: " ++ e] }
  else if name = "get_s3_object" then
    match args.lookup "bucket" with
    | none =>
        { result := .error (PyExn.keyError "bucket")
        , effects := []
        , emissions := List.map log [entry, "ERROR in call_tool: " ++ pyQuote ++ "bucket" ++ pyQuote] }
    | some bucket =>
      match args.lookup "key" with
      | none =>
          { result := .error (PyExn.keyError "key")
          , effects := []
          , emissions := List.map log [entry, "ERROR in call_tool: " ++ pyQuote ++ "key" ++ pyQuote] }
      | some key =>
        match b.getObject bucket key with
        | .ok content =>
            { result := .ok [{ type := "text", text := content }]
            , effects := [Effect.getObjectCall bucket key]
            , emissions := List.map log [entry] }
        | .error e =>
            { result := .ok [{ type := "text", text := "Error: " ++ e }]
            , effects := [Effect.getObjectCall bucket key]
            , emissions := List.map log [entry] }
  else if name = "query_dynamodb" then
    match args.lookup "table_name" with
    | none =>
        { result := .error (PyExn.keyError "table_name")
        , effects := []
        , emissions := List.map log [entry, "ERROR in call_tool: " ++ pyQuote ++ "table_name" ++ pyQuote] }
    | some table_name =>
      match args.lookup "key" with
      | none =>
          { result := .error (PyExn.keyError "key")
          , effects := []
          , emissions := List.map log [entry, "ERROR in call_tool: " ++ pyQuote ++ "key" ++ pyQuote] }
      | some key =>
        match args.lookup "value" with
        | none =>
            { result := .error (PyExn.keyError "value")
            , effects := []
            , emissions := List.map log [entry, "ERROR in call_tool: " ++ pyQuote ++ "value" ++ pyQuote] }
        | some value =>
          match b.getItem table_name key value with
          | .ok respItem =>
              { result := .ok [{ type := "text"
                               , text := pyStrDict (respItem.getD []) }]
              , effects := [Effect.getItemCall table_name key value]
              , emissions := List.map log [entry] }
          | .error e =>
              { result := .ok [{ type := "text", text := "Error: " ++ e }]
              , effects := [Effect.getItemCall table_name key value]
              , emissions := List.map log [entry] }
  else
    { result := .error (PyExn.valueError ("Unknown tool: " ++ name))
    , effects := []
    , emissions := List.map log [entry, "ERROR in call_tool: Unknown tool: " ++ name] }

/-- Outcome of server startup in `src/subprocess/mcp_server.py` (lines 13–25):
either the process proceeds to serve, or `sys.exit(code)` ran first. -/
inductive StartupOutcome where
  | serving (emissions : List Emission)
  | exited (code : Nat) (emissions : List Emission)
deriving DecidableEq, Repr

/-- The two startup lines emitted before client construction is attempted. -/
def startupPreambleMsgs : List String :=
  ["Starting AWS MCP Server...", "Initializing AWS clients..."]

/-- Embeds the module-level AWS-client initialization of
`src/subprocess/mcp_server.py` (lines 17–25): on a construction exception the
process logs the error to stderr and calls `sys.exit(1)` before any request is
served; otherwise it goes on to serve. `init` is the oracle for the boto3
constructor calls. -/
def startup (init : BackendOutcome Unit) : StartupOutcome :=
  match init with
  | .ok _ =>
      StartupOutcome.serving
        (List.map log (startupPreambleMsgs ++ ["AWS clients initialized successfully"]))
  | .error e =>
      StartupOutcome.exited 1
        (List.map log (startupPreambleMsgs ++ ["ERROR initializing AWS clients: " ++ e]))

/-- A process environment: variable-name/value pairs; `os.getenv` is lookup. -/
abbrev Env := List (String × String)

/-- Configuration a boto3 client/session is constructed with. -/
structure ClientConfig where
  region : String
  profile : Option String
deriving DecidableEq, Repr

/-- Embeds the S3 client construction of `src/subprocess/mcp_server.py`
line 20 (and `src/subprocess-strands/mcp_server_strands.py` line 19):
`boto3.client('s3', region_name="us-east-1")` — the region is the program-text
constant, whatever the environment holds. -/
def subprocessS3Client (_env : Env) : ClientConfig :=
  { region := "us-east-1", profile := none }

/-- Embeds `aws_region = os.getenv("AWS_DEFAULT_REGION", "us-east-1")` of
`src/local/mcp_server.py` line 10. -/
def localAwsRegion (env : Env) : String :=
  (env.lookup "AWS_DEFAULT_REGION").getD "us-east-1"

/-- Embeds `aws_profile = os.getenv("AWS_PROFILE")` of
`src/local/mcp_server.py` line 9. -/
def localAwsProfile (env : Env) : Option String :=
  env.lookup "AWS_PROFILE"

/-- Embeds the session construction of `src/local/mcp_server.py` lines 12–17:
the boto3 session (from which `s3_client` and `dynamodb` are derived) carries
the environment's region, and the profile when one is set. -/
def localSession (env : Env) : ClientConfig :=
  match localAwsProfile env with
  | some p => { region := localAwsRegion env, profile := some p }
  | none => { region := localAwsRegion env, profile := none }

/-- The clients of `src/local/mcp_server.py` lines 19–20 are created from the
session and inherit its configuration. -/
def localS3Client (env : Env) : ClientConfig := localSession env

/-- A tool registration (`@mcp.tool()` application) of the FastMCP servers:
the exposed name. -/
structure RegisteredTool where
  name : String
deriving DecidableEq, Repr

/-- FastMCP's registry: tools in registration order. -/
abbrev Registry := List RegisteredTool

/-- One `@mcp.tool()` registration appends the decorated function to the
registry. -/
def register (r : Registry) (t : RegisteredTool) : Registry := r ++ [t]

/-- The six sequential `@mcp.tool()` registrations of
`src/subprocess-strands/mcp_server_strands.py` (lines 28–184), in file
order. -/
def strandsRegistry : Registry :=
  register (register (register (register (register (register []
    { name := "list_s3_buckets" })
    { name := "get_s3_object" })
    { name := "put_s3_object" })
    { name := "list_dynamodb_tables" })
    { name := "query_dynamodb" })
    { name := "put_dynamodb_item" }

/-- FastMCP's tool listing: the registry's names in registration order,
unchanged by which numbered call of the session asks. -/
def registryListNames (r : Registry) (_callIndex : Nat) : List String :=
  r.map RegisteredTool.name

/-- Result of one FastMCP handler invocation: the returned string (these
handlers never raise — every branch returns), the backend effect trace, and
the stderr diagnostics. -/
structure HandlerOutcome where
  result : String
  effects : List Effect
  emissions : List Emission

/-- Embeds `list_s3_buckets` of `src/subprocess-strands/mcp_server_strands.py`
(lines 28–45): on success renders count and comma-joined names, on a backend
exception returns an error string. -/
def list_s3_buckets (b : Backend) : HandlerOutcome :=
  let entry := "list_s3_buckets called"
  match b.listBuckets with
  | .ok buckets =>
      let result := "S3 Buckets (" ++ toString buckets.length ++ "): "
        ++ String.intercalate ", " buckets
      { result := result
      , effects := [Effect.listBucketsCall]
      , emissions := List.map log [entry,
          "Successfully listed " ++ toString buckets.length ++ " buckets"] }
  | .error e =>
      let error_msg := "Error listing S3 buckets: " ++ e
      { result := error_msg
      , effects := [Effect.listBucketsCall]
      , emissions := List.map log [entry, "ERROR: " ++ error_msg] }

/-- Embeds `list_s3_buckets` of `src/local/mcp_server.py` (lines 28–33):
`"S3 Buckets (\x7blen(buckets)\x7d total):\n" + "\n".join(f"  - \x7bb\x7d")`;
no exception handling in this variant. -/
def local_list_s3_buckets (buckets : List String) : String :=
  "S3 Buckets (" ++ toString buckets.length ++ " total):\n"
    ++ String.intercalate "\n" (buckets.map (fun b => "  - " ++ b))

/-- Embeds `get_s3_object` of `src/subprocess-strands/mcp_server_strands.py`
(lines 48–71): returns the object content, or an error string when the
backend chain raises; the handler itself never raises. -/
def get_s3_object (b : Backend) (bucket key : String) : HandlerOutcome :=
  let entry := "get_s3_object called: bucket=" ++ bucket ++ ", key=" ++ key
  match b.getObject bucket key with
  | .ok content =>
      { result := content
      , effects := [Effect.getObjectCall bucket key]
      , emissions := List.map log [entry,
          "Successfully retrieved object " ++ key ++ " from bucket " ++ bucket] }
  | .error e =>
      let error_msg := "Error getting S3 object: " ++ e
      { result := error_msg
      , effects := [Effect.getObjectCall bucket key]
      , emissions := List.map log [entry, "ERROR: " ++ error_msg] }

/-- Embeds `query_dynamodb` of `src/subprocess-strands/mcp_server_strands.py`
(lines 122–155) — identical logic in
`src/local-strands/mcp_server_strands.py` (lines 106–132):
`item = response.get('Item', \x7b\x7d)`; `if item:` (Python truthiness — an
empty dict takes the no-item branch) renders `Found item: str(item)`, else
`No item found with key=value`; a backend exception yields the error
string. -/
def query_dynamodb (b : Backend) (table_name key value : String) : HandlerOutcome :=
  let entry := "query_dynamodb called: table=" ++ table_name
    ++ ", key=" ++ key ++ ", value=" ++ value
  match b.getItem table_name key value with
  | .ok respItem =>
      let item := respItem.getD []
      if item.isEmpty then
        { result := "No item found with " ++ key ++ "=" ++ value
        , effects := [Effect.getItemCall table_name key value]
        , emissions := List.map log [entry, "No item found"] }
      else
        { result := "Found item: " ++ pyStrDict item
        , effects := [Effect.getItemCall table_name key value]
        , emissions := List.map log [entry, "Successfully retrieved item"] }
  | .error e =>
      let error_msg := "Error querying DynamoDB: " ++ e
      { result := error_msg
      , effects := [Effect.getItemCall table_name key value]
      , emissions := List.map log [entry, "ERROR: " ++ error_msg] }

/-- Embeds `put_dynamodb_item` of
`src/subprocess-strands/mcp_server_strands.py` (lines 158–184) — identical
logic in `src/local-strands/mcp_server_strands.py` (lines 135–156). The
`json.loads` library call is the oracle `parse` (`.error msg` models a raised
`JSONDecodeError`); it runs inside the handler's `try`, so a parse failure
jumps to the `except` before `table.put_item` is reached: no `putItemCall`
effect is recorded on that path. -/
def put_dynamodb_item (b : Backend) (parse : String → Except String Item)
    (table_name item_json : String) : HandlerOutcome :=
  let entry := "put_dynamodb_item called: table=" ++ table_name
  match parse item_json with
  | .error e =>
      let error_msg := "Error putting item to DynamoDB: " ++ e
      { result := error_msg
      , effects := []
      , emissions := List.map log [entry, "ERROR: " ++ error_msg] }
  | .ok item =>
      match b.putItem table_name item with
      | .ok _ =>
          let result := "Successfully put item into " ++ table_name
          { result := result
          , effects := [Effect.putItemCall table_name item]
          , emissions := List.map log [entry, result] }
      | .error e =>
          let error_msg := "Error putting item to DynamoDB: " ++ e
          { result := error_msg
          , effects := [Effect.putItemCall table_name item]
          , emissions := List.map log [entry, "ERROR: " ++ error_msg] }

/-- Comma-separated join, written by primitive recursion, independent of the
`String.intercalate` the handler embeddings use; the refinement theorems for
C10 compare the two. -/
def joinComma : List String → String
  | [] => ""
  | [s] => s
  | s :: rest => s ++ ", " ++ joinComma rest

/-- Suffix join: separator before each element. Helper for relating
`String.intercalate` to the primitive-recursive `joinSep`. -/
def tailJoin (sep : String) : List String → String
  | [] => ""
  | a :: as => sep ++ a ++ tailJoin sep as

/-- Separator join written by primitive recursion, independent of the
`String.intercalate` used by the handler embeddings; the C10 theorem relates
the two, so the rendered bucket list is pinned down by a definition that does
not share the handlers' code path. -/
def joinSep (sep : String) : List String → String
  | [] => ""
  | [s] => s
  | s :: t :: rest => s ++ sep ++ joinSep sep (t :: rest)

/-- A backend on which every operation succeeds, with two buckets and one
stored item. -/
def okBackend : Backend :=
  { listBuckets := Except.ok ["alpha", "beta"]
  , getObject := fun _ _ => Except.ok "content"
  , getItem := fun _ _ _ => Except.ok (some [("id", "1")])
  , putObject := fun _ _ _ => Except.ok ()
  , putItem := fun _ _ => Except.ok ()
  , listTables := Except.ok ["t"] }

/-- A backend on which every operation raises with message `boom`. -/
def raisingBackend : Backend :=
  { listBuckets := Except.error "boom"
  , getObject := fun _ _ => Except.error "boom"
  , getItem := fun _ _ _ => Except.error "boom"
  , putObject := fun _ _ _ => Except.error "boom"
  , putItem := fun _ _ => Except.error "boom"
  , listTables := Except.error "boom" }

/-- A backend whose `get_item` response carries a present but empty `Item`. -/
def emptyItemBackend : Backend :=
  { okBackend with getItem := fun _ _ _ => Except.ok (some []) }

/-- A `json.loads` oracle that raises a decode error on every input. -/
def failingParse : String → Except String Item :=
  fun _ => Except.error "Expecting value"

theorem intercalate_go_eq (sep : String) (as : List String) (acc : String) :
    String.intercalate.go acc sep as = acc ++ tailJoin sep as := by
  induction as generalizing acc with
  | nil => simp [String.intercalate.go, tailJoin]
  | cons a as ih =>
      rw [String.intercalate.go, ih, tailJoin]
      simp [String.append_assoc]

theorem intercalate_eq_joinSep (sep : String) (l : List String) :
    String.intercalate sep l = joinSep sep l := by
  cases l with
  | nil => rfl
  | cons a as =>
      rw [String.intercalate, intercalate_go_eq]
      induction as generalizing a with
      | nil => simp [tailJoin, joinSep]
      | cons b bs ih =>
          rw [tailJoin, joinSep, ← ih b]
          simp [String.append_assoc]

theorem channel_of_mem_logs (em : Emission) (msgs : List String)
    (hm : em ∈ List.map log msgs) : em.channel = Channel.stderr := by
  rcases List.mem_map.mp hm with ⟨m, _, rfl⟩
  rfl

/-- Claim C1 (counterexample): the claim that the dispatcher catches every
handler exception and returns it as a ToolResult is false on the code: a
backend exception in the `list_s3_buckets` branch of `call_tool`
(`src/subprocess/mcp_server.py`) is logged and re-raised by the outer
`except`, so the call produces no result list at all — the exception escapes
the dispatcher function. -/
theorem C1_counterexample :
    (call_tool raisingBackend "list_s3_buckets" []).result
      = Except.error (PyExn.backendError "boom")
    ∧ ¬ ∃ contents, (call_tool raisingBackend "list_s3_buckets" []).result
      = Except.ok contents := by
  refine ⟨rfl, ?_⟩
  rintro ⟨c, hc⟩
  rw [show (call_tool raisingBackend "list_s3_buckets" []).result
      = Except.error (PyExn.backendError "boom") from rfl] at hc
  exact Except.noConfusion hc

/-- Claim C1 (amended): backend exceptions inside the `get_s3_object` and
`query_dynamodb` branches of `call_tool` are caught by the inner `try` and
converted into a single text content block (`Error: ...`) returned as an
ordinary, non-error-flagged result, and the FastMCP handler `get_s3_object`
likewise converts backend exceptions into an error string instead of raising;
but a backend exception in the `list_s3_buckets` branch is re-raised out of
the dispatcher function instead of being converted. -/
theorem C1_amended_handler_errors (b : Backend) (args : List (String × String))
    (bucket key e : String)
    (hb : args.lookup "bucket" = some bucket)
    (hk : args.lookup "key" = some key)
    (hgo : b.getObject bucket key = Except.error e) :
    (call_tool b "get_s3_object" args).result
        = Except.ok [{ type := "text", text := "Error: " ++ e }]
    ∧ (∀ tn k v e2, args.lookup "table_name" = some tn → args.lookup "key" = some k →
        args.lookup "value" = some v → b.getItem tn k v = Except.error e2 →
        (call_tool b "query_dynamodb" args).result
          = Except.ok [{ type := "text", text := "Error: " ++ e2 }])
    ∧ (∀ e3, b.listBuckets = Except.error e3 →
        (call_tool b "list_s3_buckets" args).result
          = Except.error (PyExn.backendError e3))
    ∧ (get_s3_object b bucket key).result = "Error getting S3 object: " ++ e := by
  refine ⟨?_, ?_, ?_, ?_⟩
  · simp [call_tool, hb, hk, hgo]
  · intro tn k v e2 htn hk2 hv hgi
    simp [call_tool, htn, hk2, hv, hgi]
  · intro e3 hlb
    simp [call_tool, hlb]
  · simp [get_s3_object, hgo]

/-- Claim C1 witness: the amended theorem evaluated on a concrete raising
backend and concrete arguments. -/
theorem C1_amended_handler_errors_witness :
    (call_tool raisingBackend "get_s3_object" [("bucket", "b1"), ("key", "k1")]).result
      = Except.ok [{ type := "text", text := "Error: " ++ "boom" }] :=
  (C1_amended_handler_errors raisingBackend [("bucket", "b1"), ("key", "k1")]
    "b1" "k1" "boom" rfl rfl rfl).1

/-- Claim C2 (counterexample): calling `get_s3_object` without the required
`bucket` argument does not produce a schema-validation protocol error — no
schema validation exists in the code; the dispatch enters the handler branch
and fails with a `KeyError` raised by the argument extraction
(`arguments["bucket"]`, `src/subprocess/mcp_server.py` line 84). The
no-side-effect half of the claim does hold: the effect trace is empty. -/
theorem C2_counterexample :
    (call_tool okBackend "get_s3_object" [("key", "k")]).result
        = Except.error (PyExn.keyError "bucket")
    ∧ (call_tool okBackend "get_s3_object" [("key", "k")]).effects = []
    ∧ ¬ ∃ m, (call_tool okBackend "get_s3_object" [("key", "k")]).result
        = Except.error (PyExn.schemaViolation m) := by
  refine ⟨rfl, rfl, ?_⟩
  rintro ⟨m, hm⟩
  rw [show (call_tool okBackend "get_s3_object" [("key", "k")]).result
      = Except.error (PyExn.keyError "bucket") from rfl] at hm
  exact PyExn.noConfusion (Except.error.inj hm)

/-- Claim C2 (amended): for a call that omits a parameter listed in the
descriptor's `required` schema field, `call_tool` fails with a raised
`KeyError` naming the missing parameter — a raised exception produced by
argument extraction inside the dispatch branch, not by schema validation —
and no backend operation is invoked, so no backend side effect occurs. -/
theorem C2_amended_missing_argument (b : Backend) (args : List (String × String)) :
    (args.lookup "bucket" = none →
      (call_tool b "get_s3_object" args).result = Except.error (PyExn.keyError "bucket")
      ∧ (call_tool b "get_s3_object" args).effects = [])
    ∧ (∀ bucket, args.lookup "bucket" = some bucket → args.lookup "key" = none →
      (call_tool b "get_s3_object" args).result = Except.error (PyExn.keyError "key")
      ∧ (call_tool b "get_s3_object" args).effects = [])
    ∧ (args.lookup "table_name" = none →
      (call_tool b "query_dynamodb" args).result
          = Except.error (PyExn.keyError "table_name")
      ∧ (call_tool b "query_dynamodb" args).effects = [])
    ∧ (∀ tn, args.lookup "table_name" = some tn → args.lookup "key" = none →
      (call_tool b "query_dynamodb" args).result = Except.error (PyExn.keyError "key")
      ∧ (call_tool b "query_dynamodb" args).effects = [])
    ∧ (∀ tn k, args.lookup "table_name" = some tn → args.lookup "key" = some k →
        args.lookup "value" = none →
      (call_tool b "query_dynamodb" args).result = Except.error (PyExn.keyError "value")
      ∧ (call_tool b "query_dynamodb" args).effects = [])
    ∧ (∃ t ∈ list_tools, t.name = "get_s3_object"
        ∧ "bucket" ∈ t.required ∧ "key" ∈ t.required)
    ∧ (∃ t ∈ list_tools, t.name = "query_dynamodb"
        ∧ "table_name" ∈ t.required ∧ "key" ∈ t.required ∧ "value" ∈ t.required) := by
  refine ⟨?_, ?_, ?_, ?_, ?_, ?_, ?_⟩
  · intro hb
    constructor <;> simp [call_tool, hb]
  · intro bucket hb hk
    constructor <;> simp [call_tool, hb, hk]
  · intro ht
    constructor <;> simp [call_tool, ht]
  · intro tn ht hk
    constructor <;> simp [call_tool, ht, hk]
  · intro tn k ht hk hv
    constructor <;> simp [call_tool, ht, hk, hv]
  · refine ⟨list_tools.get ⟨1, by decide⟩, by simp [list_tools], by decide, by decide,
      by decide⟩
  · refine ⟨list_tools.get ⟨2, by decide⟩, by simp [list_tools], by decide, by decide,
      by decide, by decide⟩

/-- Claim C2 witness: the amended theorem evaluated at a concrete call of
`get_s3_object` whose arguments hold only `key`, and at a concrete call of
`query_dynamodb` whose arguments omit `value`. -/
theorem C2_amended_missing_argument_witness :
    ((call_tool okBackend "get_s3_object" [("key", "k")]).result
        = Except.error (PyExn.keyError "bucket")
    ∧ (call_tool okBackend "get_s3_object" [("key", "k")]).effects = [])
    ∧ ((call_tool okBackend "query_dynamodb"
          [("table_name", "t"), ("key", "k")]).result
        = Except.error (PyExn.keyError "value")
    ∧ (call_tool okBackend "query_dynamodb"
          [("table_name", "t"), ("key", "k")]).effects = []) :=
  ⟨(C2_amended_missing_argument okBackend [("key", "k")]).1 rfl,
   (C2_amended_missing_argument okBackend
      [("table_name", "t"), ("key", "k")]).2.2.2.2.1 "t" "k" rfl rfl rfl⟩

/-- Claim C3 (confirmed): for every name that matches no descriptor of
`list_tools`, `call_tool` raises `ValueError ("Unknown tool: " ++ name)` —
an exception escaping the dispatcher (a protocol-level failure, not a
returned result list) — and the effect trace is empty: no handler branch and
no backend operation runs. -/
theorem C3_unknown_tool_protocol_error (b : Backend) (name : String)
    (args : List (String × String))
    (h : name ∉ list_tools.map Tool.name) :
    (call_tool b name args).result
        = Except.error (PyExn.valueError ("Unknown tool: " ++ name))
    ∧ (call_tool b name args).effects = [] := by
  simp only [list_tools, List.map, List.mem_cons, List.not_mem_nil, or_false,
    not_or] at h
  obtain ⟨h1, h2, h3⟩ := h
  simp [call_tool, h1, h2, h3]

/-- Claim C3 witness: the theorem evaluated at the unregistered name
`nope`. -/
theorem C3_unknown_tool_protocol_error_witness :
    (call_tool okBackend "nope" []).result
        = Except.error (PyExn.valueError ("Unknown tool: " ++ "nope"))
    ∧ (call_tool okBackend "nope" []).effects = [] :=
  C3_unknown_tool_protocol_error okBackend "nope" [] (by decide)

/-- Claim C4 (confirmed): `list_tools` returns the descriptors in the order
they appear in the source, every repeated call within a session returns the
identical sequence, the FastMCP registry built by successive `@mcp.tool()`
registrations lists names in registration order (`register` appends), and the
strands server's six tools are listed first-registered-first. -/
theorem C4_listing_registration_order_stable :
    (∀ i j, list_tools_call i = list_tools_call j)
    ∧ list_tools.map Tool.name = ["list_s3_buckets", "get_s3_object", "query_dynamodb"]
    ∧ (∀ (r : Registry) (t : RegisteredTool) (i : Nat),
        registryListNames (register r t) i = registryListNames r i ++ [t.name])
    ∧ (∀ i j, registryListNames strandsRegistry i = registryListNames strandsRegistry j)
    ∧ registryListNames strandsRegistry 0
        = ["list_s3_buckets", "get_s3_object", "put_s3_object",
           "list_dynamodb_tables", "query_dynamodb", "put_dynamodb_item"] := by
  refine ⟨fun i j => rfl, rfl, ?_, fun i j => rfl, rfl⟩
  intro r t i
  simp [registryListNames, register]

/-- Claim C4 witness: discovery evaluated at two concrete call indices
returns the same sequence. -/
theorem C4_listing_registration_order_stable_witness :
    registryListNames strandsRegistry 0 = registryListNames strandsRegistry 5 :=
  C4_listing_registration_order_stable.2.2.2.1 0 5

/-- Claim C5 (counterexample): the subprocess-binding server does not read
its backend region from the environment: `src/subprocess/mcp_server.py`
constructs its clients with the program-text constant `us-east-1`, so under
an environment that sets `AWS_DEFAULT_REGION` to `eu-west-1` the constructed
client still uses `us-east-1`. -/
theorem C5_counterexample :
    subprocessS3Client [("AWS_DEFAULT_REGION", "eu-west-1")]
        = { region := "us-east-1", profile := none }
    ∧ ("us-east-1" : String) ≠ "eu-west-1" :=
  ⟨rfl, by decide⟩

/-- Claim C5 (amended): it is the HTTP-binding server `src/local/mcp_server.py`
that reads region and profile from the environment — for every environment
assignment of `AWS_DEFAULT_REGION` its session and clients carry that region
(defaulting to `us-east-1` when unset) — while the subprocess-binding server
fixes the region to the constant `us-east-1` regardless of the environment. -/
theorem C5_amended_env_region (env : Env) (r : String)
    (h : env.lookup "AWS_DEFAULT_REGION" = some r) :
    (localS3Client env).region = r
    ∧ localAwsRegion env = r
    ∧ (∀ env2 : Env, (subprocessS3Client env2).region = "us-east-1")
    ∧ (∀ env3 : Env, env3.lookup "AWS_DEFAULT_REGION" = none →
        localAwsRegion env3 = "us-east-1") := by
  refine ⟨?_, ?_, fun _ => rfl, ?_⟩
  · cases hp : localAwsProfile env <;>
      simp [localS3Client, localSession, localAwsRegion, h, hp]
  · simp [localAwsRegion, h]
  · intro env3 h3
    simp [localAwsRegion, h3]

/-- Claim C5 witness: the amended theorem evaluated on a concrete environment
setting the region to `eu-central-1`. -/
theorem C5_amended_env_region_witness :
    (localS3Client [("AWS_DEFAULT_REGION", "eu-central-1")]).region = "eu-central-1" :=
  (C5_amended_env_region [("AWS_DEFAULT_REGION", "eu-central-1")] "eu-central-1" rfl).1

/-- Claim C6 (confirmed): every diagnostic the subprocess-binding server
emits — during startup, `list_tools`, `call_tool`, and each FastMCP handler —
goes through `log`, which writes to stderr; no diagnostic emission targets
stdout, on any branch of any call. -/
theorem C6_diagnostics_to_stderr_only (b : Backend) (name : String)
    (args : List (String × String)) (init : BackendOutcome Unit)
    (bucket key table value itemJson : String)
    (parse : String → Except String Item) (em : Emission) :
    (em ∈ (call_tool b name args).emissions → em.channel = Channel.stderr)
    ∧ (em ∈ list_tools_emissions → em.channel = Channel.stderr)
    ∧ (∀ ems, startup init = StartupOutcome.serving ems → em ∈ ems →
        em.channel = Channel.stderr)
    ∧ (∀ c ems, startup init = StartupOutcome.exited c ems → em ∈ ems →
        em.channel = Channel.stderr)
    ∧ (em ∈ (list_s3_buckets b).emissions → em.channel = Channel.stderr)
    ∧ (em ∈ (get_s3_object b bucket key).emissions → em.channel = Channel.stderr)
    ∧ (em ∈ (query_dynamodb b table key value).emissions → em.channel = Channel.stderr)
    ∧ (em ∈ (put_dynamodb_item b parse table itemJson).emissions →
        em.channel = Channel.stderr) := by
  refine ⟨?_, ?_, ?_, ?_, ?_, ?_, ?_, ?_⟩
  · intro hm
    simp only [call_tool] at hm
    iterate 12 (all_goals try split at hm)
    all_goals exact channel_of_mem_logs em _ hm
  · intro hm
    unfold list_tools_emissions at hm
    exact channel_of_mem_logs em _ hm
  · intro ems h hm
    unfold startup at h
    split at h
    · cases h
      exact channel_of_mem_logs em _ hm
    · exact StartupOutcome.noConfusion h
  · intro c ems h hm
    unfold startup at h
    split at h
    · exact StartupOutcome.noConfusion h
    · cases h
      exact channel_of_mem_logs em _ hm
  · intro hm
    simp only [list_s3_buckets] at hm
    iterate 4 (all_goals try split at hm)
    all_goals exact channel_of_mem_logs em _ hm
  · intro hm
    simp only [get_s3_object] at hm
    iterate 4 (all_goals try split at hm)
    all_goals exact channel_of_mem_logs em _ hm
  · intro hm
    simp only [query_dynamodb] at hm
    iterate 6 (all_goals try split at hm)
    all_goals exact channel_of_mem_logs em _ hm
  · intro hm
    simp only [put_dynamodb_item] at hm
    iterate 6 (all_goals try split at hm)
    all_goals exact channel_of_mem_logs em _ hm

/-- Claim C6 witness: the theorem evaluated at the concrete diagnostic the
`list_tools` handler emits. -/
theorem C6_diagnostics_to_stderr_only_witness :
    (log "list_tools called").channel = Channel.stderr :=
  (C6_diagnostics_to_stderr_only okBackend "list_s3_buckets" [] (Except.ok ())
      "b" "k" "t" "v" "s" failingParse (log "list_tools called")).2.1
    (by simp [list_tools_emissions])

/-- Claim C7 (confirmed): when backend client construction fails during
startup, the subprocess-binding server logs the error and exits with status
code 1 — non-zero — and never reaches the serving state, for every failure
message. -/
theorem C7_init_failure_exits_nonzero (e : String) :
    startup (Except.error e)
        = StartupOutcome.exited 1 (List.map log (startupPreambleMsgs
            ++ ["ERROR initializing AWS clients: " ++ e]))
    ∧ (∀ ems, startup (Except.error e) ≠ StartupOutcome.serving ems)
    ∧ (1 : Nat) ≠ 0 :=
  ⟨rfl, fun _ h => StartupOutcome.noConfusion h, by decide⟩

/-- Claim C7 witness: startup evaluated on a concrete construction
failure. -/
theorem C7_init_failure_exits_nonzero_witness :
    startup (Except.error "boom")
        = StartupOutcome.exited 1 (List.map log (startupPreambleMsgs
            ++ ["ERROR initializing AWS clients: " ++ "boom"])) :=
  (C7_init_failure_exits_nonzero "boom").1

/-- Claim C8 (counterexample): the claim that a response containing an `Item`
yields text beginning `Found item: ` is false when the present `Item` is the
empty mapping: `item = response.get('Item', ...)` followed by Python-truthiness
`if item:` sends an empty present item down the no-item branch, so the handler
returns exactly `No item found with k=v` — which does not begin with
`Found item: `. -/
theorem C8_counterexample :
    (query_dynamodb emptyItemBackend "t" "k" "v").result = "No item found with k=v"
    ∧ ¬ ∃ rest, (query_dynamodb emptyItemBackend "t" "k" "v").result
        = "Found item: " ++ rest := by
  refine ⟨rfl, ?_⟩
  rintro ⟨rest, h⟩
  rw [show (query_dynamodb emptyItemBackend "t" "k" "v").result
      = "No item found with k=v" from rfl] at h
  have hd := congrArg String.data h
  rw [String.congr_append] at hd
  simp at hd

/-- Claim C8 (amended): `query_dynamodb` is total over backend outcomes and
always returns a string: when the response carries a non-empty `Item` the
result is `Found item: ` followed by the item's rendering; when the response
carries no `Item` or an empty one it is exactly `No item found with key=value`;
and when the backend raises it is `Error querying DynamoDB: ` followed by the
exception text, instead of raising. -/
theorem C8_amended_query_outcomes (b : Backend) (t k v : String) :
    (∀ item, b.getItem t k v = Except.ok (some item) → item ≠ [] →
        ∃ rest, (query_dynamodb b t k v).result = "Found item: " ++ rest)
    ∧ (∀ respItem, b.getItem t k v = Except.ok respItem →
        (respItem.getD []).isEmpty = true →
        (query_dynamodb b t k v).result = "No item found with " ++ k ++ "=" ++ v)
    ∧ (∀ e, b.getItem t k v = Except.error e →
        (query_dynamodb b t k v).result = "Error querying DynamoDB: " ++ e) := by
  refine ⟨?_, ?_, ?_⟩
  · intro item hgi hne
    refine ⟨pyStrDict item, ?_⟩
    simp [query_dynamodb, hgi, List.isEmpty_iff, hne]
  · intro respItem hgi hemp
    simp [query_dynamodb, hgi, hemp]
  · intro e hgi
    simp [query_dynamodb, hgi]

/-- Claim C8 witness: the amended theorem evaluated on a backend holding one
item and on a raising backend. -/
theorem C8_amended_query_outcomes_witness :
    (∃ rest, (query_dynamodb okBackend "tbl" "id" "1").result = "Found item: " ++ rest)
    ∧ (query_dynamodb raisingBackend "tbl" "id" "1").result
        = "Error querying DynamoDB: " ++ "boom" :=
  ⟨(C8_amended_query_outcomes okBackend "tbl" "id" "1").1 [("id", "1")] rfl (by decide),
   (C8_amended_query_outcomes raisingBackend "tbl" "id" "1").2.2 "boom" rfl⟩

/-- Claim C9 (confirmed): when `json.loads` rejects `item_json`,
`put_dynamodb_item` jumps to the `except` before `table.put_item` is reached:
it returns `Error putting item to DynamoDB: ` followed by the decode error,
and the backend effect trace is empty — no table write is ever invoked, so
backend state is unchanged on this path. -/
theorem C9_invalid_json_no_write (b : Backend) (t s m : String)
    (parse : String → Except String Item)
    (hp : parse s = Except.error m) :
    (put_dynamodb_item b parse t s).result = "Error putting item to DynamoDB: " ++ m
    ∧ (put_dynamodb_item b parse t s).effects = [] := by
  constructor <;> simp [put_dynamodb_item, hp]

/-- Claim C9 witness: the theorem evaluated on a concrete always-failing
parse oracle and a backend on which a write would succeed. -/
theorem C9_invalid_json_no_write_witness :
    (put_dynamodb_item okBackend failingParse "tbl" "not json").result
        = "Error putting item to DynamoDB: " ++ "Expecting value"
    ∧ (put_dynamodb_item okBackend failingParse "tbl" "not json").effects = [] :=
  C9_invalid_json_no_write okBackend "tbl" "not json" "Expecting value"
    failingParse rfl

/-- Claim C10 (confirmed): for every successful backend list-buckets
response, the string the `list_s3_buckets` handlers return embeds exactly the
number of bucket names in the response, and the names listed after it are
exactly the response's names in backend order (`joinSep` is an independent
primitive-recursive join); the low-level server's branch likewise lists the
names in backend order. -/
theorem C10_bucket_listing_count_order (b : Backend) (buckets : List String)
    (h : b.listBuckets = Except.ok buckets) :
    (list_s3_buckets b).result
        = "S3 Buckets (" ++ toString buckets.length ++ "): " ++ joinSep ", " buckets
    ∧ local_list_s3_buckets buckets
        = "S3 Buckets (" ++ toString buckets.length ++ " total):\n"
          ++ joinSep "\n" (buckets.map (fun s => "  - " ++ s))
    ∧ (call_tool b "list_s3_buckets" []).result
        = Except.ok [{ type := "text"
                     , text := "S3 Buckets: " ++ joinSep ", " buckets }] := by
  refine ⟨?_, ?_, ?_⟩
  · simp [list_s3_buckets, h, intercalate_eq_joinSep]
  · simp [local_list_s3_buckets, intercalate_eq_joinSep]
  · simp [call_tool, h, intercalate_eq_joinSep]

/-- Claim C10 witness: the theorem evaluated on a concrete two-bucket
backend. -/
theorem C10_bucket_listing_count_order_witness :
    (list_s3_buckets okBackend).result
        = "S3 Buckets (" ++ toString (["alpha", "beta"] : List String).length ++ "): "
          ++ joinSep ", " ["alpha", "beta"] :=
  (C10_bucket_listing_count_order okBackend ["alpha", "beta"] rfl).1
